import Mathlib

/-!
Shallow embedding of `pyrobomotra` (two-joint robot-arm motion tracker).

Sources embedded:
* `src/pyrobomotra/robot/model.py` — class `RobotArm2Tracker`: the tracker
  state, `__init__`, `publish`, `update_states`, `get_states_from_db`,
  `update`, `get_forward_kinematics`, `robot_msg_handler`,
  `consume_telemetry_msgs`.
* `src/pyrobomotra/cli.py` — the supervisor loop `app`, `_graceful_shutdown`.

Modelling conventions:
* Python floats are modelled as real numbers; `np.cos` / `np.sin` are
  external library functions and are passed in as abstract parameters
  `c s' : ℝ → ℝ` (the embedding never fixes them, so every theorem holds
  for the actual trigonometric functions in particular).
* The `queue.SimpleQueue` FIFO is a `List` whose head is the oldest element;
  `put_nowait` appends at the tail, `get_nowait` pops the head.
* The Redis state store (`pyrobomotra.in_mem_db`, not part of the five
  source files) is an abstract lookup `Store : String → Option KinematicState`;
  `update` additionally returns the list of keys it read, so that frame
  claims about store access are statable.
* `PubSubAMQP` (`pyrobomotra.pub_sub`, not part of the five source files) is
  reduced to the two pieces of data `model.py` reads from it: a publisher's
  `exchange_name` and a subscriber's `get_callback_handler_name()` result.
  Publishing is modelled as emitting an event `(publisher, message)`.
* A JSON telemetry object is a `RawMsg` of optional fields; a key absent
  from the object is `none`.  Exceptions (`KeyError` from a missing dict
  key, the fatal `sys.exit` paths) are explicit in the return types.
-/

namespace Pyrobomotra

/-- A publisher as seen by `model.py`: only its `exchange_name` attribute is
read (in `RobotArm2Tracker.publish`). -/
structure Publisher where
  exchange_name : String
deriving DecidableEq, Repr

/-- A subscriber as seen by `model.py`: only `get_callback_handler_name()`
is read (in `consume_telemetry_msgs`); it may return `None`. -/
structure Subscriber where
  callback_handler_name : Option String
deriving DecidableEq, Repr

/-- An inbound JSON telemetry object (`message_body` after `json.loads`).
Each field is `none` when the corresponding key is absent from the object.
A present `id` is taken to be a JSON string, a present angle a number and a
present `base`/`shoulder` a two-element array. -/
structure RawMsg where
  id : Option String
  theta1 : Option ℝ
  theta2 : Option ℝ
  base : Option (ℝ × ℝ)
  shoulder : Option (ℝ × ℝ)

/-- The kinematic fields of the tracker (`model.py` lines 80–83), which are
also exactly the fields of a persisted state-store snapshot
(`update_states`, lines 146–150, and `restore_states_in_db`, lines 160–169). -/
structure KinematicState where
  length_shoulder_to_elbow : ℝ
  length_elbow_to_gripper : ℝ
  base : ℝ × ℝ
  shoulder : ℝ × ℝ

/-- The mutable state of one `RobotArm2Tracker` instance. -/
structure TrackerState where
  length_shoulder_to_elbow : ℝ
  length_elbow_to_gripper : ℝ
  base : ℝ × ℝ
  shoulder : ℝ × ℝ
  consume_telemetry_queue : List RawMsg
  publishers : List Publisher
  subscribers : List Subscriber

/-- Projection of the tracker state onto its kinematic fields (the data the
spec calls `KinematicState`). -/
def kinematic_of (st : TrackerState) : KinematicState :=
  ⟨st.length_shoulder_to_elbow, st.length_elbow_to_gripper, st.base, st.shoulder⟩

/-- The state store: `get(key)` returns a parsed snapshot or `None`. -/
abbrev Store := String → Option KinematicState

/-- An outbound pose message (`result_rmt_robot` built in `update`,
`model.py` lines 185–191): `id`, `base`, `shoulder`, the merged
forward-kinematics result `elbow` and `wrist`, and a timestamp. -/
structure PoseMsg where
  id : String
  base : ℝ × ℝ
  shoulder : ℝ × ℝ
  elbow : ℝ × ℝ
  wrist : ℝ × ℝ
  timestamp : ℕ

/-- A Python exception surfaced by the embedded code paths. -/
inductive PyErr where
  | keyError
deriving DecidableEq, Repr

/-- The forward-kinematics result dict (`model.py` lines 217–220). -/
structure FK where
  elbow : ℝ × ℝ
  wrist : ℝ × ℝ

/-- `RobotArm2Tracker.publish` (`model.py` lines 128–135): iterate the
configured publishers and forward the message to every one whose
`exchange_name` equals the argument.  Forwarding is modelled as emitting
the event `(publisher, msg)`; the returned list is the publish events in
loop order. -/
def publish (st : TrackerState) (exchange_name : String) (msg : PoseMsg) :
    List (Publisher × PoseMsg) :=
  st.publishers.foldl
    (fun out pub => if exchange_name = pub.exchange_name then out ++ [(pub, msg)] else out)
    []

/-- `RobotArm2Tracker.update_states` (`model.py` lines 146–150): overwrite
the four kinematic fields from a state-store snapshot. -/
def update_states (st : TrackerState) (state_information : KinematicState) : TrackerState :=
  { st with
    length_shoulder_to_elbow := state_information.length_shoulder_to_elbow
    length_elbow_to_gripper := state_information.length_elbow_to_gripper
    base := state_information.base
    shoulder := state_information.shoulder }

/-- `RobotArm2Tracker.get_states_from_db` (`model.py` lines 152–158): look
up key `"robot_" + robot_id`; `None` stays `none`, otherwise the JSON
value parses to a snapshot. -/
def get_states_from_db (store : Store) (robot_id : String) : Option KinematicState :=
  store ("robot_" ++ robot_id)

/-- `RobotArm2Tracker.get_forward_kinematics` (`model.py` lines 199–221),
with `np.cos` and `np.sin` abstracted as `c` and `s'`.  The method reads
`self.shoulder` and the two lengths, performs no assignment to `self`, and
returns the `elbow`/`wrist` dict; the pair returned here is
(state of `self` after the call, returned dict). -/
def get_forward_kinematics (c s' : ℝ → ℝ) (st : TrackerState) (theta1 theta2 : ℝ) :
    TrackerState × FK :=
  let elbow : ℝ × ℝ :=
    (st.shoulder.1 + st.length_shoulder_to_elbow * c theta1,
     st.shoulder.2 + st.length_shoulder_to_elbow * s' theta1)
  let wrist : ℝ × ℝ :=
    (elbow.1 + st.length_elbow_to_gripper * c (theta1 + theta2),
     elbow.2 + st.length_elbow_to_gripper * s' (theta1 + theta2))
  (st, ⟨elbow, wrist⟩)

/-- Everything one call to `RobotArm2Tracker.update` does: the tracker state
afterwards, the publish events emitted (in order), the state-store keys
read (in order), and the exception that escaped, if any. -/
structure UpdateResult where
  state : TrackerState
  published : List (Publisher × PoseMsg)
  store_reads : List String
  err : Option PyErr

/-- `RobotArm2Tracker.update` (`model.py` lines 171–197).  If the queue is
empty nothing happens.  Otherwise one message is popped
(`get_nowait`), its `"id"` key is read (a missing key would raise
`KeyError`), the store is queried under `"robot_" + id`, and only when a
snapshot is found does the method overwrite the kinematic fields
(`update_states`), read the message's `"theta1"`/`"theta2"` keys, run
forward kinematics and publish the pose to the `"rmt_robot"` and
`"visual"` exchanges.  `now` stands for `time.time_ns()`. -/
def update (c s' : ℝ → ℝ) (store : Store) (now : ℕ) (st : TrackerState) : UpdateResult :=
  match st.consume_telemetry_queue with
  | [] => ⟨st, [], [], none⟩
  | new_measurement :: restq =>
    let st1 := { st with consume_telemetry_queue := restq }
    match new_measurement.id with
    | none => ⟨st1, [], [], some .keyError⟩
    | some new_measurement_id =>
      match get_states_from_db store new_measurement_id with
      | none => ⟨st1, [], ["robot_" ++ new_measurement_id], none⟩
      | some state_info =>
        let st2 := update_states st1 state_info
        match new_measurement.theta1 with
        | none => ⟨st2, [], ["robot_" ++ new_measurement_id], some .keyError⟩
        | some theta1 =>
          match new_measurement.theta2 with
          | none => ⟨st2, [], ["robot_" ++ new_measurement_id], some .keyError⟩
          | some theta2 =>
            let fk := get_forward_kinematics c s' st2 theta1 theta2
            let st3 := fk.1
            let result_rmt_robot : PoseMsg :=
              ⟨new_measurement_id, st3.base, st3.shoulder, fk.2.elbow, fk.2.wrist, now⟩
            ⟨st3,
             publish st3 "rmt_robot" result_rmt_robot ++ publish st3 "visual" result_rmt_robot,
             ["robot_" ++ new_measurement_id], none⟩

/-- `RobotArm2Tracker.robot_msg_handler` (`model.py` lines 226–235): if the
keys `id`, `shoulder`, `theta1`, `theta2` and `base` are all present the
message is appended to the FIFO queue (`put_nowait`); otherwise nothing
happens. -/
def robot_msg_handler (st : TrackerState) (message_body : RawMsg) : TrackerState :=
  if message_body.id.isSome && message_body.shoulder.isSome && message_body.theta1.isSome
      && message_body.theta2.isSome && message_body.base.isSome then
    { st with consume_telemetry_queue := st.consume_telemetry_queue ++ [message_body] }
  else
    st

/-- The attribute names of a `RobotArm2Tracker` instance (fields set in
`__init__` plus the methods), as `getattr` in `consume_telemetry_msgs`
sees them. -/
def tracker_attr_names : List String :=
  ["length_shoulder_to_elbow", "length_elbow_to_gripper", "base", "shoulder",
   "consume_telemetry_queue", "redis_db", "eventloop", "publishers", "subscribers",
   "publish", "connect", "update_states", "get_states_from_db", "restore_states_in_db",
   "update", "get_forward_kinematics", "__get_all_states__", "robot_msg_handler",
   "consume_telemetry_msgs"]

/-- The subscriber loop of `RobotArm2Tracker.consume_telemetry_msgs`
(`model.py` lines 248–258) over the remaining subscribers.  For each
subscriber: a `None` callback name skips it; the name
`"robot_msg_handler"` resolves by `getattr` to the handler, which runs with
the message; any other existing attribute either is not awaitable or
rejects the keyword arguments, so the call raises, the outer
`except Exception` fires and the process exits (`model.py` lines 265–269) —
returned as flag `true`; a name that is no attribute raises
`AttributeError` inside the inner bare `except`, which `continue`s.  The
result is (tracker state, whether `sys.exit` was reached). -/
def consume_go (m : RawMsg) : TrackerState → List Subscriber → TrackerState × Bool
  | st, [] => (st, false)
  | st, subscriber :: restl =>
    match subscriber.callback_handler_name with
    | none => consume_go m st restl
    | some cb_str =>
      if cb_str = "robot_msg_handler" then
        consume_go m (robot_msg_handler st m) restl
      else if cb_str ∈ tracker_attr_names then
        (st, true)
      else
        consume_go m st restl

/-- `RobotArm2Tracker.consume_telemetry_msgs` (`model.py` lines 237–269):
the subscriber-callback entry point.  `json.loads` of the wire payload is
the given `RawMsg`; the loop over `self.subscribers` is `consume_go`. -/
def consume_telemetry_msgs (st : TrackerState) (m : RawMsg) : TrackerState × Bool :=
  consume_go m st st.subscribers

/-- One `publishers`/`subscribers` entry of the `protocol` block of the
robot configuration, as read by `RobotArm2Tracker.__init__`: its `type`
key, the exchange name the constructed `PubSubAMQP` will carry, and the
callback-handler name the entry declares for a subscriber
(`get_callback_handler_name` returns it later; the `pub_sub` module is not
among the source files, so this field is carried opaquely). -/
structure ProtoEntry where
  type : String
  exchange_name : String
  app_callback_handler : Option String
deriving DecidableEq, Repr

/-- The `protocol` block: `publishers` and `subscribers` may each be the
JSON/YAML null (`None` in Python), which `__init__` checks for. -/
structure ProtocolInfo where
  publishers : Option (List ProtoEntry)
  subscribers : Option (List ProtoEntry)
deriving DecidableEq, Repr

/-- The part of a robot's configuration dictionary that
`RobotArm2Tracker.__init__` inspects (the `in_mem_db` block only feeds the
external Redis client and is omitted). -/
structure RobotInfo where
  protocol : ProtocolInfo
deriving DecidableEq, Repr

/-- The publisher-construction loop of `__init__` (`model.py` lines
93–106): entries are processed in order; an entry whose `type` is not
`"amq"` raises `AssertionError`, which the surrounding `try` turns into
`sys.exit(-1)` — modelled as `none`. -/
def build_publishers : List ProtoEntry → Option (List Publisher)
  | [] => some []
  | p :: restl =>
    if p.type = "amq" then
      (build_publishers restl).map (fun ps => ⟨p.exchange_name⟩ :: ps)
    else
      none

/-- The subscriber-construction loop of `__init__` (`model.py` lines
108–122), analogous to `build_publishers`. -/
def build_subscribers : List ProtoEntry → Option (List Subscriber)
  | [] => some []
  | p :: restl =>
    if p.type = "amq" then
      (build_subscribers restl).map (fun ss => ⟨p.app_callback_handler⟩ :: ss)
    else
      none

/-- `RobotArm2Tracker.__init__` (`model.py` lines 70–126).  `robot_info`
equal to `None`, or any exception while building publishers or subscribers
(in particular an entry whose `type` is not `"amq"`), reaches
`sys.exit(-1)`: the process terminates with that status and no tracker
object is returned.  Otherwise the fields are initialised as on lines
80–91 and the publisher/subscriber lists as built by the two loops. -/
def tracker_init (robot_info : Option RobotInfo) : Except Int TrackerState :=
  match robot_info with
  | none => .error (-1)
  | some info =>
    let pubs? := match info.protocol.publishers with
      | none => some []
      | some entries => build_publishers entries
    match pubs? with
    | none => .error (-1)
    | some pubs =>
      let subs? := match info.protocol.subscribers with
        | none => some []
        | some entries => build_subscribers entries
      match subs? with
      | none => .error (-1)
      | some subs => .ok ⟨0, 0, (0, 0), (0, 0), [], pubs, subs⟩

/-- `_graceful_shutdown` (`cli.py` lines 40–43):
`for each_robot in robots_in_ws: del each_robot`.  Each iteration binds the
loop variable `each_robot` to the next list element and `del` then removes
that local binding only — the statement never calls `list.remove`, `clear`
or slice deletion, so `robots_in_ws` itself is left exactly as it was. -/
def graceful_shutdown (robots_in_ws : List TrackerState) : List TrackerState :=
  robots_in_ws.foldl (fun ws _each_robot => ws) robots_in_ws

/-- One reconfiguration (SIGHUP) boundary of the supervisor loop `app`
(`cli.py` lines 62–101): after the tick loop observes the SIGHUP flag it
calls `_graceful_shutdown()`, resets the flag, and the outer `while True`
re-reads the configuration and appends the freshly constructed trackers to
the (module-global) `robots_in_ws` list.  The result is the tracker list
the next tick sweep iterates over. -/
def app_reload_step (robots_in_ws new_trackers : List TrackerState) : List TrackerState :=
  graceful_shutdown robots_in_ws ++ new_trackers

/-- One tick sweep of the supervisor's inner loop (`cli.py` lines 92–95):
`for robo in robots_in_ws: await robo.update()`. -/
def tick_sweep (c s' : ℝ → ℝ) (store : Store) (now : ℕ) (robots : List TrackerState) :
    List UpdateResult :=
  robots.map (update c s' store now)

/-! ### Helper lemmas -/

/-- The ingestion handler leaves every field except the FIFO queue
untouched, and the queue either stays as is or gains one copy of the
message at the tail. -/
lemma robot_msg_handler_frame (st : TrackerState) (m : RawMsg) :
    kinematic_of (robot_msg_handler st m) = kinematic_of st ∧
    (robot_msg_handler st m).publishers = st.publishers ∧
    (robot_msg_handler st m).subscribers = st.subscribers ∧
    ∃ j, (robot_msg_handler st m).consume_telemetry_queue =
      st.consume_telemetry_queue ++ List.replicate j m := by
  unfold robot_msg_handler
  split
  · exact ⟨rfl, rfl, rfl, 1, rfl⟩
  · exact ⟨rfl, rfl, rfl, 0, by simp⟩

/-- The subscriber-dispatch loop leaves every field except the FIFO queue
untouched and only ever appends copies of the delivered message. -/
lemma consume_go_frame (m : RawMsg) (subs : List Subscriber) (st : TrackerState) :
    kinematic_of (consume_go m st subs).1 = kinematic_of st ∧
    (consume_go m st subs).1.publishers = st.publishers ∧
    (consume_go m st subs).1.subscribers = st.subscribers ∧
    ∃ k, (consume_go m st subs).1.consume_telemetry_queue =
      st.consume_telemetry_queue ++ List.replicate k m := by
  induction subs generalizing st with
  | nil => exact ⟨rfl, rfl, rfl, 0, by simp [consume_go]⟩
  | cons subscriber restl ih =>
    rcases hcb : subscriber.callback_handler_name with _ | cb_str
    · simpa [consume_go, hcb] using ih st
    · by_cases hname : cb_str = "robot_msg_handler"
      · have hstep : consume_go m st (subscriber :: restl) =
            consume_go m (robot_msg_handler st m) restl := by
          simp [consume_go, hcb, hname]
        obtain ⟨hk, hp, hs, j, hq⟩ := robot_msg_handler_frame st m
        obtain ⟨ihk, ihp, ihs, k, ihq⟩ := ih (robot_msg_handler st m)
        refine ⟨?_, ?_, ?_, j + k, ?_⟩
        · rw [hstep, ihk, hk]
        · rw [hstep, ihp, hp]
        · rw [hstep, ihs, hs]
        · rw [hstep, ihq, hq, List.append_assoc, ← List.replicate_add]
      · by_cases hattr : cb_str ∈ tracker_attr_names
        · exact ⟨by simp [consume_go, hcb, hname, hattr],
            by simp [consume_go, hcb, hname, hattr],
            by simp [consume_go, hcb, hname, hattr],
            0, by simp [consume_go, hcb, hname, hattr]⟩
        · simpa [consume_go, hcb, hname, hattr] using ih st

/-- Unfolding the `publish` fold: the events are the accumulator followed by
one event per matching publisher, in list order. -/
lemma publish_foldl_eq (exchange_name : String) (msg : PoseMsg) (l : List Publisher)
    (acc : List (Publisher × PoseMsg)) :
    l.foldl
        (fun out pub => if exchange_name = pub.exchange_name then out ++ [(pub, msg)] else out)
        acc =
      acc ++ (l.filter fun pub => exchange_name = pub.exchange_name).map (fun pub => (pub, msg)) := by
  induction l generalizing acc with
  | nil => simp
  | cons p restl ih =>
    by_cases hp : exchange_name = p.exchange_name
    · subst hp
      simp [List.foldl_cons, ih, List.filter_cons]
    · simp [List.foldl_cons, hp, ih, List.filter_cons]

/-- A publisher-entry list containing a non-`"amq"` entry makes the
publisher-construction loop raise (reach `sys.exit(-1)`). -/
lemma build_publishers_none_of_bad (entries : List ProtoEntry)
    (h : ∃ e ∈ entries, e.type ≠ "amq") : build_publishers entries = none := by
  induction entries with
  | nil => simp at h
  | cons p restl ih =>
    by_cases hp : p.type = "amq"
    · obtain ⟨e, he, hbad⟩ := h
      rcases List.mem_cons.mp he with rfl | hmem
      · exact absurd hp hbad
      · simp [build_publishers, hp, ih ⟨e, hmem, hbad⟩]
    · simp [build_publishers, hp]

/-- A subscriber-entry list containing a non-`"amq"` entry makes the
subscriber-construction loop raise (reach `sys.exit(-1)`). -/
lemma build_subscribers_none_of_bad (entries : List ProtoEntry)
    (h : ∃ e ∈ entries, e.type ≠ "amq") : build_subscribers entries = none := by
  induction entries with
  | nil => simp at h
  | cons p restl ih =>
    by_cases hp : p.type = "amq"
    · obtain ⟨e, he, hbad⟩ := h
      rcases List.mem_cons.mp he with rfl | hmem
      · exact absurd hp hbad
      · simp [build_subscribers, hp, ih ⟨e, hmem, hbad⟩]
    · simp [build_subscribers, hp]

/-! ### Concrete sample values used by counterexamples and witnesses -/

/-- A tracker as the supervisor would run it for the cli argument
`--id r1`: one publisher on exchange `rmt_robot`, one subscriber whose
configured callback name is `robot_msg_handler`, empty queue. -/
def sample_tracker : TrackerState :=
  ⟨1, 1, (0, 0), (0, 0), [], [⟨"rmt_robot"⟩], [⟨some "robot_msg_handler"⟩]⟩

/-- A telemetry message with all five required keys present but carrying
the foreign robot id `"r2"`. -/
def msg_other_id : RawMsg := ⟨some "r2", some 0, some 0, some (0, 0), some (0, 0)⟩

/-- A telemetry message whose `theta1` key is absent. -/
def msg_missing_theta : RawMsg := ⟨some "r1", none, some 0, some (0, 0), some (0, 0)⟩

/-- A persisted snapshot for robot `r1`: both arm lengths 1, base and
shoulder at the origin. -/
def snap_r1 : KinematicState := ⟨1, 1, (0, 0), (0, 0)⟩

/-- A state store holding exactly the snapshot for key `"robot_r1"`. -/
def store_r1 : Store := fun k => if k = "robot_r1" then some snap_r1 else none

/-- A complete telemetry message for robot `r1` with `theta1 = 0`. -/
def msg_theta_zero : RawMsg := ⟨some "r1", some 0, some 0, some (0, 0), some (0, 0)⟩

/-- A complete telemetry message for robot `r1`, identical to
`msg_theta_zero` except that `theta1 = 1`. -/
def msg_theta_one : RawMsg := ⟨some "r1", some 1, some 0, some (0, 0), some (0, 0)⟩

/-- A tracker left over from the supervisor cycle before a SIGHUP. -/
def stale_tracker : TrackerState := ⟨2, 2, (0, 0), (0, 0), [], [⟨"rmt_robot"⟩], []⟩

/-- A tracker freshly constructed from the configuration loaded after the
SIGHUP. -/
def fresh_tracker : TrackerState := ⟨3, 3, (1, 1), (1, 1), [], [⟨"visual"⟩], []⟩

/-! ### Claim theorems -/

/-- C3: for all arm lengths, shoulder position and angles, forward
kinematics returns `elbow = shoulder + L1 • (cos θ1, sin θ1)` and
`wrist = elbow + L2 • (cos (θ1+θ2), sin (θ1+θ2))`, and the tracker state
after the call is exactly the state before it (no mutation). -/
theorem forward_kinematics_formula (c s' : ℝ → ℝ) (st : TrackerState) (theta1 theta2 : ℝ) :
    (get_forward_kinematics c s' st theta1 theta2).1 = st ∧
    (get_forward_kinematics c s' st theta1 theta2).2.elbow =
      st.shoulder + st.length_shoulder_to_elbow • ((c theta1 : ℝ), (s' theta1 : ℝ)) ∧
    (get_forward_kinematics c s' st theta1 theta2).2.wrist =
      (get_forward_kinematics c s' st theta1 theta2).2.elbow +
        st.length_elbow_to_gripper • ((c (theta1 + theta2) : ℝ), (s' (theta1 + theta2) : ℝ)) := by
  refine ⟨rfl, ?_, ?_⟩ <;>
    simp [get_forward_kinematics, Prod.ext_iff, smul_eq_mul]

/-- C5: a tick on an empty inbound queue is a strict no-op — the state is
returned unchanged (every field), nothing is published, no state-store key
is read, and no exception is raised. -/
theorem update_empty_queue_noop (c s' : ℝ → ℝ) (store : Store) (now : ℕ) (st : TrackerState) :
    update c s' store now { st with consume_telemetry_queue := [] } =
      ⟨{ st with consume_telemetry_queue := [] }, [], [], none⟩ :=
  rfl

/-- C6: whenever the inbound queue holds `m :: restq` (with `m` the oldest
message), one call to `update` leaves the queue at exactly `restq` — one
message is removed, it is the oldest, and the remaining messages keep
their order — on every control-flow path of `update`. -/
theorem update_dequeues_exactly_one (c s' : ℝ → ℝ) (store : Store) (now : ℕ)
    (st : TrackerState) (m : RawMsg) (restq : List RawMsg) :
    (update c s' store now
        { st with consume_telemetry_queue := m :: restq }).state.consume_telemetry_queue =
      restq := by
  rcases hi : m.id with _ | i
  · simp [update, hi]
  · rcases hdb : get_states_from_db store i with _ | snap
    · simp [update, hi, hdb]
    · rcases h1 : m.theta1 with _ | t1
      · simp [update, hi, hdb, h1, update_states]
      · rcases h2 : m.theta2 with _ | t2
        · simp [update, hi, hdb, h1, h2, update_states]
        · simp [update, hi, hdb, h1, h2, update_states, get_forward_kinematics]

/-- C9: the subscriber-callback path (`consume_telemetry_msgs`, hence also
`robot_msg_handler`) never touches the kinematic fields, the publisher
list or the subscriber list; the only structure it modifies is the inbound
FIFO queue, to which it can only append copies of the delivered message. -/
theorem consume_callback_only_enqueues (st : TrackerState) (m : RawMsg) :
    kinematic_of (consume_telemetry_msgs st m).1 = kinematic_of st ∧
    (consume_telemetry_msgs st m).1.publishers = st.publishers ∧
    (consume_telemetry_msgs st m).1.subscribers = st.subscribers ∧
    ∃ k, (consume_telemetry_msgs st m).1.consume_telemetry_queue =
      st.consume_telemetry_queue ++ List.replicate k m :=
  consume_go_frame m st.subscribers st

/-- C2 counterexample: the ingestion handler performs no robot-id
comparison at all — `sample_tracker` is the tracker the supervisor runs for
robot id `"r1"`, yet a complete telemetry message carrying the different id
`"r2"` is enqueued rather than dropped, contradicting the claim that an
id-mismatched message is not enqueued. -/
theorem ingest_enqueues_mismatched_id :
    ("r2" : String) ≠ "r1" ∧ msg_other_id.id = some "r2" ∧
    robot_msg_handler sample_tracker msg_other_id =
      { sample_tracker with consume_telemetry_queue := [msg_other_id] } :=
  ⟨by decide, rfl, rfl⟩

/-- C2 amended: a telemetry message missing any of the keys `id`, `theta1`,
`theta2`, `base`, `shoulder` is dropped — not enqueued, the whole tracker
state unchanged, no exception — while a message with all five keys present
is appended to the FIFO queue regardless of which robot id it carries (the
handler performs no id comparison; the tracker stores no configured id). -/
theorem ingest_drop_filter (st : TrackerState) (m : RawMsg) :
    ((m.id = none ∨ m.theta1 = none ∨ m.theta2 = none ∨ m.base = none ∨ m.shoulder = none) →
      robot_msg_handler st m = st) ∧
    (m.id.isSome = true → m.theta1.isSome = true → m.theta2.isSome = true →
      m.base.isSome = true → m.shoulder.isSome = true →
      robot_msg_handler st m =
        { st with consume_telemetry_queue := st.consume_telemetry_queue ++ [m] }) := by
  constructor
  · rintro (h | h | h | h | h) <;> simp [robot_msg_handler, h]
  · intro h1 h2 h3 h4 h5
    simp [robot_msg_handler, h1, h2, h3, h4, h5]

/-- C2 witness: a message missing `theta1` is dropped, and the complete
message with id `"r2"` is enqueued, on the concrete sample tracker. -/
theorem ingest_drop_filter_witness :
    robot_msg_handler sample_tracker msg_missing_theta = sample_tracker ∧
    robot_msg_handler sample_tracker msg_other_id =
      { sample_tracker with consume_telemetry_queue :=
          sample_tracker.consume_telemetry_queue ++ [msg_other_id] } :=
  ⟨(ingest_drop_filter sample_tracker msg_missing_theta).1 (Or.inr (Or.inl rfl)),
   (ingest_drop_filter sample_tracker msg_other_id).2 rfl rfl rfl rfl rfl⟩

/-- C7: `publish` forwards the message to exactly the configured publishers
whose `exchange_name` equals the argument — all of them, in configuration
order, each receiving the same message — and when no publisher matches the
result is no event at all (a no-op, not an error). -/
theorem publish_routes_by_exchange (st : TrackerState) (exchange_name : String) (msg : PoseMsg) :
    publish st exchange_name msg =
      (st.publishers.filter fun pub => pub.exchange_name = exchange_name).map
        (fun pub => (pub, msg)) ∧
    ((∀ pub ∈ st.publishers, pub.exchange_name ≠ exchange_name) →
      publish st exchange_name msg = []) := by
  have hmain : publish st exchange_name msg =
      (st.publishers.filter fun pub => pub.exchange_name = exchange_name).map
        (fun pub => (pub, msg)) := by
    rw [publish, publish_foldl_eq]
    simp only [List.nil_append]
    congr 1
    apply List.filter_congr
    intro pub _
    simp [eq_comm]
  refine ⟨hmain, fun h => ?_⟩
  rw [hmain]
  have : (st.publishers.filter fun pub => pub.exchange_name = exchange_name) = [] := by
    simp only [List.filter_eq_nil_iff]
    intro pub hmem
    simpa using h pub hmem
  simp [this]

/-- C7 witness: on the concrete sample tracker (single publisher on
`rmt_robot`) publishing to the unconfigured exchange `nobody` emits no
event. -/
theorem publish_routes_by_exchange_witness :
    publish sample_tracker "nobody"
      ⟨"r1", (0, 0), (0, 0), (0, 0), (0, 0), 0⟩ = [] :=
  (publish_routes_by_exchange sample_tracker "nobody"
      ⟨"r1", (0, 0), (0, 0), (0, 0), (0, 0), 0⟩).2
    (by decide)

/-- C8: a robot configuration whose `protocol` block lists a publisher or
subscriber entry with a `type` other than `"amq"` makes the constructor
fatal: `tracker_init` yields no tracker state but the process exit status
`-1`, which is non-zero. -/
theorem bad_protocol_type_fatal (info : RobotInfo)
    (h : (∃ entries, info.protocol.publishers = some entries ∧ ∃ e ∈ entries, e.type ≠ "amq") ∨
         (∃ entries, info.protocol.subscribers = some entries ∧ ∃ e ∈ entries, e.type ≠ "amq")) :
    tracker_init (some info) = .error (-1) ∧ (-1 : Int) ≠ 0 := by
  refine ⟨?_, by decide⟩
  rcases h with ⟨entries, hpe, hbad⟩ | ⟨entries, hse, hbad⟩
  · simp [tracker_init, hpe, build_publishers_none_of_bad entries hbad]
  · rcases hp : info.protocol.publishers with _ | pentries
    · simp [tracker_init, hp, hse, build_subscribers_none_of_bad entries hbad]
    · rcases hb : build_publishers pentries with _ | pubs
      · simp [tracker_init, hp, hb]
      · simp [tracker_init, hp, hb, hse, build_subscribers_none_of_bad entries hbad]

/-- C8 witness: a configuration with one publisher entry of type `"mqtt"`
makes `tracker_init` exit with status `-1`. -/
theorem bad_protocol_type_fatal_witness :
    tracker_init (some ⟨⟨some [⟨"mqtt", "telemetry", none⟩], none⟩⟩) = .error (-1) ∧
    (-1 : Int) ≠ 0 :=
  bad_protocol_type_fatal ⟨⟨some [⟨"mqtt", "telemetry", none⟩], none⟩⟩
    (Or.inl ⟨[⟨"mqtt", "telemetry", none⟩], rfl, ⟨"mqtt", "telemetry", none⟩,
      List.mem_singleton.mpr rfl, by decide⟩)

/-- C1 (code bug): after a SIGHUP reconfiguration boundary the supervisor's
tracker list is NOT replaced — `_graceful_shutdown`'s `del each_robot`
deletes only the loop variable, so the stale tracker survives in
`robots_in_ws` next to the freshly constructed one, and the next tick
sweep still calls `update()` on it. -/
theorem reload_keeps_stale_trackers :
    app_reload_step [stale_tracker] [fresh_tracker] = [stale_tracker, fresh_tracker] ∧
    stale_tracker ∈ app_reload_step [stale_tracker] [fresh_tracker] ∧
    tick_sweep (fun x => x) (fun x => x) (fun _ => none) 0
        (app_reload_step [stale_tracker] [fresh_tracker]) =
      [update (fun x => x) (fun x => x) (fun _ => none) 0 stale_tracker,
       update (fun x => x) (fun x => x) (fun _ => none) 0 fresh_tracker] := by
  refine ⟨rfl, ?_, rfl⟩
  rw [show app_reload_step [stale_tracker] [fresh_tracker] = [stale_tracker, fresh_tracker]
    from rfl]
  exact List.mem_cons_self _ _

/-- C4 counterexample: `update` takes `theta1`/`theta2` from the dequeued
message, not from the state-store snapshot (which holds no angles at all):
two messages with the same id, hitting the same stored snapshot, with the
same timestamp, produce different published poses when only their `theta1`
differs — impossible if the angles were applied from the snapshot. -/
theorem update_uses_message_thetas_not_snapshot :
    msg_theta_zero.id = msg_theta_one.id ∧
    get_states_from_db store_r1 "r1" = some snap_r1 ∧
    (update (fun x : ℝ => x) (fun x : ℝ => x) store_r1 0
        { sample_tracker with consume_telemetry_queue := [msg_theta_zero] }).published ≠
      (update (fun x : ℝ => x) (fun x : ℝ => x) store_r1 0
        { sample_tracker with consume_telemetry_queue := [msg_theta_one] }).published := by
  refine ⟨rfl, rfl, fun h => ?_⟩
  have hkey : ("robot_" ++ "r1" : String) = "robot_r1" := rfl
  have h2 := congrArg (fun l => ((l.map (fun e => e.2.elbow.1)).sum : ℝ)) h
  simp only [update, get_states_from_db, hkey, store_r1, snap_r1, msg_theta_zero,
    msg_theta_one, update_states, get_forward_kinematics, publish, sample_tracker,
    List.foldl, List.map, List.sum, if_pos] at h2
  norm_num at h2

/-- C4 amended: for a dequeued message whose id yields a snapshot, `update`
applies `base`, `shoulder` and the two arm lengths from that snapshot, and
`theta1`/`theta2` from the message itself, to its kinematic state;
recomputes elbow and wrist by forward kinematics from those values; and
routes the resulting pose (id, base, shoulder, elbow, wrist, timestamp)
through `publish` to the `"rmt_robot"` and `"visual"` exchanges, hence to
every matching configured publisher; the one message is consumed and only
the one store key is read. -/
theorem update_applies_snapshot_and_publishes (c s' : ℝ → ℝ) (store : Store) (now : ℕ)
    (st : TrackerState) (m : RawMsg) (restq : List RawMsg) (i : String) (t1 t2 : ℝ)
    (snap : KinematicState)
    (hid : m.id = some i) (h1 : m.theta1 = some t1) (h2 : m.theta2 = some t2)
    (hdb : store ("robot_" ++ i) = some snap) :
    update c s' store now { st with consume_telemetry_queue := m :: restq } =
      (let st' : TrackerState :=
        { st with
          consume_telemetry_queue := restq
          length_shoulder_to_elbow := snap.length_shoulder_to_elbow
          length_elbow_to_gripper := snap.length_elbow_to_gripper
          base := snap.base
          shoulder := snap.shoulder };
      let elbow : ℝ × ℝ :=
        (snap.shoulder.1 + snap.length_shoulder_to_elbow * c t1,
         snap.shoulder.2 + snap.length_shoulder_to_elbow * s' t1);
      let wrist : ℝ × ℝ :=
        (elbow.1 + snap.length_elbow_to_gripper * c (t1 + t2),
         elbow.2 + snap.length_elbow_to_gripper * s' (t1 + t2));
      let pose : PoseMsg := ⟨i, snap.base, snap.shoulder, elbow, wrist, now⟩;
      ⟨st', publish st' "rmt_robot" pose ++ publish st' "visual" pose,
        ["robot_" ++ i], none⟩) := by
  rcases m with ⟨mid, mt1, mt2, mb, msh⟩
  dsimp only at hid h1 h2
  subst hid h1 h2
  simp only [update, get_states_from_db, hdb, update_states, get_forward_kinematics]

/-- C4 witness: the concrete scenario of spec §8 — snapshot with both
lengths 1 at the origin, message `theta1 = 0`, `theta2 = 0` — run through
`update` on the sample tracker. -/
theorem update_applies_snapshot_and_publishes_witness :
    update (fun x : ℝ => x) (fun x : ℝ => x) store_r1 7
        { sample_tracker with consume_telemetry_queue := [msg_theta_zero] } =
      (let st' : TrackerState :=
        { sample_tracker with
          consume_telemetry_queue := ([] : List RawMsg)
          length_shoulder_to_elbow := snap_r1.length_shoulder_to_elbow
          length_elbow_to_gripper := snap_r1.length_elbow_to_gripper
          base := snap_r1.base
          shoulder := snap_r1.shoulder };
      let elbow : ℝ × ℝ :=
        (snap_r1.shoulder.1 + snap_r1.length_shoulder_to_elbow * (0 : ℝ),
         snap_r1.shoulder.2 + snap_r1.length_shoulder_to_elbow * (0 : ℝ));
      let wrist : ℝ × ℝ :=
        (elbow.1 + snap_r1.length_elbow_to_gripper * ((0 : ℝ) + 0),
         elbow.2 + snap_r1.length_elbow_to_gripper * ((0 : ℝ) + 0));
      let pose : PoseMsg := ⟨"r1", snap_r1.base, snap_r1.shoulder, elbow, wrist, 7⟩;
      ⟨st', publish st' "rmt_robot" pose ++ publish st' "visual" pose,
        ["robot_" ++ "r1"], none⟩) :=
  update_applies_snapshot_and_publishes (fun x : ℝ => x) (fun x : ℝ => x) store_r1 7
    sample_tracker msg_theta_zero [] "r1" 0 0 snap_r1 rfl rfl rfl rfl

/-- C10: a dequeued message whose id has no snapshot in the state store is
silently discarded — the message is removed from the queue and not
re-enqueued, the kinematic fields and every other field are unchanged,
nothing is published, the one failed store read is the only store access,
and no exception is raised. -/
theorem update_missing_snapshot_drops (c s' : ℝ → ℝ) (store : Store) (now : ℕ)
    (st : TrackerState) (m : RawMsg) (restq : List RawMsg) (i : String)
    (hid : m.id = some i)
    (hfull : m.theta1.isSome = true ∧ m.theta2.isSome = true ∧
      m.base.isSome = true ∧ m.shoulder.isSome = true)
    (hdb : store ("robot_" ++ i) = none) :
    update c s' store now { st with consume_telemetry_queue := m :: restq } =
      ⟨{ st with consume_telemetry_queue := restq }, [], ["robot_" ++ i], none⟩ := by
  rcases m with ⟨mid, mt1, mt2, mb, msh⟩
  dsimp only at hid
  subst hid
  simp only [update, get_states_from_db, hdb]

/-- C10 witness: an accepted message for robot `r2` against an empty state
store is consumed without effect. -/
theorem update_missing_snapshot_drops_witness :
    update (fun x : ℝ => x) (fun x : ℝ => x) (fun _ => none) 0
        { sample_tracker with consume_telemetry_queue := [msg_other_id] } =
      ⟨{ sample_tracker with consume_telemetry_queue := ([] : List RawMsg) }, [],
        ["robot_" ++ "r2"], none⟩ :=
  update_missing_snapshot_drops (fun x : ℝ => x) (fun x : ℝ => x) (fun _ => none) 0
    sample_tracker msg_other_id [] "r2" rfl ⟨rfl, rfl, rfl, rfl⟩ rfl

end Pyrobomotra
